import Mathlib

/-!
Verification of the lexical analyzer `analizadorLexico.py`.

Python strings are embedded as `List Char` (`Str`), the Python dict
`palabras_clave` as an association list built by `pyDictInsert`, and the
compiled regular expression `^[a-z][a-z0-9]*$` as the boolean matcher
`coincidePatron`, reproducing the semantics of CPython `re.match`: the
anchor `$` also matches just before a single trailing newline character,
so a string consisting of a match of the body followed by one final
`\n` is accepted as well.
-/

abbrev Str := List Char

/-- Python `str.isspace`-style whitespace set used by `str.split()` and
`str.strip()`: space, tab, newline, carriage return, vertical tab, form feed. -/
def pyIsSpace (c : Char) : Bool :=
  c = ' ' || c = '\t' || c = '\n' || c = '\r' || c = '\x0b' || c = '\x0c'

/-- Python `str.strip()`: remove leading and trailing whitespace. -/
def pyStrip (s : Str) : Str :=
  ((s.dropWhile pyIsSpace).reverse.dropWhile pyIsSpace).reverse

/-- Accumulator-based worker for `pySplit`; `cur` holds the current word
reversed. -/
def pySplitAux : Str → Str → List Str
  | [], cur => if cur.isEmpty then [] else [cur.reverse]
  | c :: cs, cur =>
    if pyIsSpace c then
      if cur.isEmpty then pySplitAux cs [] else cur.reverse :: pySplitAux cs []
    else pySplitAux cs (c :: cur)

/-- Python `str.split()` with no argument: split on runs of whitespace,
dropping empty fields (`line 28` and `line 93` of the source). -/
def pySplit (s : Str) : List Str := pySplitAux s []

/-- Character class `[a-z]` (ASCII lowercase letters). -/
def isLowerAZ (c : Char) : Bool := 'a' ≤ c && c ≤ 'z'

/-- Character class `[a-z0-9]` (ASCII lowercase letters and digits). -/
def isLowerOrDigit (c : Char) : Bool := isLowerAZ c || ('0' ≤ c && c ≤ '9')

/-- Whether a string is fully matched by the regex body `[a-z][a-z0-9]*`:
nonempty, first character a lowercase letter, remaining characters
lowercase letters or digits. -/
def matchesBody : Str → Bool
  | [] => false
  | c :: cs => isLowerAZ c && cs.all isLowerOrDigit

/-- The compiled pattern of line 12, `re.compile(r'^[a-z][a-z0-9]*$')`,
as the function `regex.match(s) is not None`.  CPython `$` also matches
immediately before a trailing newline, so a body match followed by one
final `\n` is accepted. -/
def coincidePatron (s : Str) : Bool :=
  matchesBody s ||
    (match s.getLast? with
     | some c => c == '\n' && matchesBody s.dropLast
     | none => false)

/-- The analyzer state: the keyword table `palabras_clave` (a Python dict
from lexeme to token kind) and the compiled identifier regex, represented
by its matching function (set once at `__init__`, line 11 and 12). -/
structure AnalizadorLexico where
  palabras_clave : List (Str × Str)
  patron_identificador : Str → Bool

/-- Lookup in the keyword dict: first (and, for tables built by repeated
`pyDictInsert`, only) binding of the key. -/
def pyDictLookup (m : List (Str × Str)) (k : Str) : Option Str :=
  match m with
  | [] => none
  | p :: rest => if p.1 = k then some p.2 else pyDictLookup rest k

/-- Python `d[k] = v` on a dict: overwrite the binding of `k` in place if
present, otherwise append a new binding at the end. -/
def pyDictInsert (m : List (Str × Str)) (k v : Str) : List (Str × Str) :=
  match m with
  | [] => [(k, v)]
  | p :: rest => if p.1 = k then (k, v) :: rest else p :: pyDictInsert rest k v

/-- The per-line work of `cargar_diccionario` (lines 26-30): strip the
line, skip it when blank, split on whitespace, and keep it only when it
has exactly two fields, yielding the (lexema, tipo_token) entry. -/
def entradaDeLinea (linea : Str) : Option (Str × Str) :=
  let l := pyStrip linea
  if l.isEmpty then none
  else
    match pySplit l with
    | [lexema, tipo_token] => some (lexema, tipo_token)
    | _ => none

/-- One iteration of the loop of `cargar_diccionario`: the dict after
processing one line. -/
def pasoCarga (m : List (Str × Str)) (linea : Str) : List (Str × Str) :=
  match entradaDeLinea linea with
  | some e => pyDictInsert m e.1 e.2
  | none => m

/-- Method `cargar_diccionario` (lines 23-31), over the list of lines of the
dictionary file: starting from the empty dict of `__init__`, insert the
entry of each well-formed line in order. -/
def cargar_diccionario (lineas : List Str) : List (Str × Str) :=
  lineas.foldl pasoCarga []

/-- Constructor `__init__` (lines 4-13): empty dict, compile the identifier pattern,
load the dictionary lines. -/
def mkAnalizador (lineas : List Str) : AnalizadorLexico :=
  { palabras_clave := cargar_diccionario lineas
    patron_identificador := coincidePatron }

/-- An analyzer holding an arbitrary keyword table together with the
compiled pattern of line 12 (the pattern field is never reassigned, so
every reachable analyzer has this form). -/
def analizadorCon (T : List (Str × Str)) : AnalizadorLexico :=
  { palabras_clave := T, patron_identificador := coincidePatron }

/-- Method `es_identificador` (lines 40-52):
`bool(self.patron_identificador.match(palabra))`. -/
def es_identificador (a : AnalizadorLexico) (palabra : Str) : Bool :=
  a.patron_identificador palabra

/-- Method `clasificar_token` (lines 54-76): keyword lookup, then identifier
check, then lexical error; the returned lexeme is always the input. -/
def clasificar_token (a : AnalizadorLexico) (palabra : Str) : Str × Str :=
  match pyDictLookup a.palabras_clave palabra with
  | some tipo_token => (tipo_token, palabra)
  | none =>
    if es_identificador a palabra then (("IDENTIFICADOR").toList, palabra)
    else (("ERROR_LEXICO").toList, palabra)

/-- A call of `es_identificador` seen as a state transformer on the
analyzer: the method body reads `self` and assigns nothing, so the
post-state is the pre-state. -/
def es_identificador_call (a : AnalizadorLexico) (palabra : Str) :
    Bool × AnalizadorLexico :=
  (es_identificador a palabra, a)

/-- A call of `clasificar_token` seen as a state transformer on the
analyzer: the method body reads `self` and assigns nothing, so the
post-state is the pre-state. -/
def clasificar_token_call (a : AnalizadorLexico) (palabra : Str) :
    (Str × Str) × AnalizadorLexico :=
  (clasificar_token a palabra, a)

/-- The token loop of `analizar_archivo` (lines 86-98): classify each
word in order, appending each result to the `tokens` list. -/
def analizar_palabras (a : AnalizadorLexico) (palabras : List Str) :
    List (Str × Str) :=
  palabras.foldl (fun toks palabra => toks ++ [clasificar_token a palabra]) []

/-- Method `analizar_archivo` on the file content: words are
`contenido.split()` (line 93), then the token loop runs over them. -/
def analizar_archivo (a : AnalizadorLexico) (contenido : Str) :
    List (Str × Str) :=
  analizar_palabras a (pySplit contenido)

/-- The identifier rule exactly as the specification words it: one
lowercase ASCII letter followed by zero or more lowercase ASCII letters
or ASCII digits, the entire string matching, no other character anywhere,
the empty string never valid. -/
def specEsIdentificador (t : Str) : Bool :=
  match t with
  | [] => false
  | c :: cs => isLowerAZ c && cs.all isLowerOrDigit

/-- A dictionary line is well formed when the loop of
`cargar_diccionario` extracts an entry from it: nonblank after stripping
and exactly two whitespace-separated fields. -/
def bienFormada (linea : Str) : Bool :=
  (entradaDeLinea linea).isSome

/-- Insertion of a list of (lexeme, kind) entries into a dict, in order. -/
def insertarEntradas (m : List (Str × Str)) (es : List (Str × Str)) :
    List (Str × Str) :=
  es.foldl (fun m e => pyDictInsert m e.1 e.2) m

/-- Lookup after insert: the inserted key now maps to the new value, and
every other key is untouched. -/
lemma pyDictLookup_pyDictInsert (m : List (Str × Str)) (k v k' : Str) :
    pyDictLookup (pyDictInsert m k v) k' =
      if k' = k then some v else pyDictLookup m k' := by
  induction m with
  | nil =>
    by_cases h : k' = k
    · simp [pyDictInsert, pyDictLookup, h]
    · have h2 : ¬ k = k' := fun hh => h hh.symm
      simp [pyDictInsert, pyDictLookup, h, h2]
  | cons p rest ih =>
    by_cases hp : p.1 = k
    · simp only [pyDictInsert, hp, if_true]
      by_cases h : k' = k
      · subst h
        simp [pyDictLookup]
      · have h2 : ¬ k = k' := fun hh => h hh.symm
        have h3 : ¬ p.1 = k' := fun hh => h2 (hp.symm.trans hh)
        simp [pyDictLookup, h, h2, h3]
    · simp only [pyDictInsert, hp, if_false]
      by_cases hq : p.1 = k'
      · have h : ¬ k' = k := fun hh => hp (hq.trans hh)
        simp [pyDictLookup, hq, h]
      · simp [pyDictLookup, hq, ih]

/-- Size after insert: unchanged when the key was present, one more when
it was fresh. -/
lemma length_pyDictInsert (m : List (Str × Str)) (k v : Str) :
    (pyDictInsert m k v).length =
      if (pyDictLookup m k).isSome then m.length else m.length + 1 := by
  induction m with
  | nil => simp [pyDictInsert, pyDictLookup]
  | cons p rest ih =>
    simp only [pyDictInsert, pyDictLookup]
    by_cases hp : p.1 = k
    · simp [hp]
    · simp only [hp, if_false, List.length_cons, ih]
      by_cases h : (pyDictLookup rest k).isSome <;> simp [h]

/-- The appending loop of `analizar_archivo` computes the map of the
classifier over the words, for any starting accumulator. -/
lemma foldl_append_singleton (a : AnalizadorLexico) :
    ∀ (l : List Str) (acc : List (Str × Str)),
      l.foldl (fun toks palabra => toks ++ [clasificar_token a palabra]) acc
        = acc ++ l.map (clasificar_token a) := by
  intro l
  induction l with
  | nil => intro acc; simp
  | cons p ps ih => intro acc; simp [ih]

/-- Loading lines is inserting the entries of the well-formed lines. -/
lemma foldl_pasoCarga (lineas : List Str) :
    ∀ (m : List (Str × Str)),
      lineas.foldl pasoCarga m = insertarEntradas m (lineas.filterMap entradaDeLinea) := by
  induction lineas with
  | nil => intro m; simp [insertarEntradas]
  | cons l ls ih =>
    intro m
    rcases h : entradaDeLinea l with _ | e
    · simp [pasoCarga, h, ih, List.filterMap_cons]
    · simp [pasoCarga, h, ih, List.filterMap_cons, insertarEntradas]

/-- Lines that yield no entry do not change the filterMap of entries. -/
lemma filterMap_entradas_filter (lineas : List Str) :
    (lineas.filter bienFormada).filterMap entradaDeLinea
      = lineas.filterMap entradaDeLinea := by
  induction lineas with
  | nil => rfl
  | cons l ls ih =>
    rcases h : entradaDeLinea l with _ | e
    · simp [List.filter_cons, List.filterMap_cons, bienFormada, h, ih]
    · simp [List.filter_cons, List.filterMap_cons, bienFormada, h, ih]

/-- Inserting entries with pairwise distinct, fresh lexemes grows the
dict by exactly the number of entries. -/
lemma length_insertarEntradas :
    ∀ (es : List (Str × Str)) (m : List (Str × Str)),
      (es.map Prod.fst).Nodup →
      (∀ e ∈ es, pyDictLookup m e.1 = none) →
      (insertarEntradas m es).length = m.length + es.length := by
  intro es
  induction es with
  | nil => intro m _ _; simp [insertarEntradas]
  | cons e es ih =>
    intro m hnd hfresh
    have hstep : insertarEntradas m (e :: es)
        = insertarEntradas (pyDictInsert m e.1 e.2) es := rfl
    have hm : pyDictLookup m e.1 = none := hfresh e (List.mem_cons_self e es)
    have hlen : (pyDictInsert m e.1 e.2).length = m.length + 1 := by
      simp [length_pyDictInsert, hm]
    have hnd2 : (es.map Prod.fst).Nodup := (List.nodup_cons.mp (by simpa using hnd)).2
    have hnotmem : e.1 ∉ es.map Prod.fst := (List.nodup_cons.mp (by simpa using hnd)).1
    have hfresh2 : ∀ e2 ∈ es, pyDictLookup (pyDictInsert m e.1 e.2) e2.1 = none := by
      intro e2 he2
      have hne : ¬ e2.1 = e.1 := by
        intro hh
        exact hnotmem (hh ▸ List.mem_map_of_mem Prod.fst he2)
      rw [pyDictLookup_pyDictInsert, if_neg hne]
      exact hfresh e2 (List.mem_cons_of_mem e he2)
    rw [hstep, ih _ hnd2 hfresh2, hlen]
    simp [Nat.add_assoc, Nat.add_comm 1 es.length]

/-- The count of well-formed lines is the number of extracted entries. -/
lemma countP_bienFormada (lineas : List Str) :
    (lineas.filterMap entradaDeLinea).length = lineas.countP bienFormada := by
  induction lineas with
  | nil => rfl
  | cons l ls ih =>
    rcases h : entradaDeLinea l with _ | e
    · simp [List.filterMap_cons, List.countP_cons, bienFormada, h, ih]
    · simp [List.filterMap_cons, List.countP_cons, bienFormada, h, ih]

/-- C1: for every token string and keyword table, `clasificar_token`
follows the strict short-circuiting three-step rule — a table hit returns
the table's recorded kind, otherwise an identifier-pattern match returns
IDENTIFICADOR, otherwise ERROR_LEXICO — and the returned lexeme is the
original token, unchanged, in every case. -/
theorem clasificar_token_tres_pasos (T : List (Str × Str)) (t : Str) :
    (∀ k, pyDictLookup T t = some k →
      clasificar_token (analizadorCon T) t = (k, t)) ∧
    (pyDictLookup T t = none → es_identificador (analizadorCon T) t = true →
      clasificar_token (analizadorCon T) t = (("IDENTIFICADOR").toList, t)) ∧
    (pyDictLookup T t = none → es_identificador (analizadorCon T) t = false →
      clasificar_token (analizadorCon T) t = (("ERROR_LEXICO").toList, t)) ∧
    (clasificar_token (analizadorCon T) t).2 = t := by
  refine ⟨?_, ?_, ?_, ?_⟩
  · intro k hk
    simp [clasificar_token, analizadorCon, hk]
  · intro hk hid
    simp [clasificar_token, analizadorCon, hk, es_identificador] at hid ⊢
    simp [hid]
  · intro hk hid
    simp [clasificar_token, analizadorCon, hk, es_identificador] at hid ⊢
    simp [hid]
  · rcases hk : pyDictLookup T t with _ | k
    · simp only [clasificar_token, analizadorCon, hk]
      by_cases hid : es_identificador (analizadorCon T) t
      · simp only [analizadorCon] at hid
        simp [hid]
      · simp only [analizadorCon] at hid
        simp [hid]
    · simp [clasificar_token, analizadorCon, hk]

/-- Witness for C1 at a concrete table and token. -/
theorem clasificar_token_tres_pasos_witness :
    clasificar_token (analizadorCon [((("si").toList), (("KW").toList))]) (("si").toList)
      = ((("KW").toList), (("si").toList)) :=
  (clasificar_token_tres_pasos [((("si").toList), (("KW").toList))] (("si").toList)).1
    (("KW").toList) (by decide)

/-- C2: `clasificar_token` is total — for every input string and table it
returns the original lexeme together with exactly one of the three
outcomes: a kind recorded in the table, IDENTIFICADOR, or ERROR_LEXICO. -/
theorem clasificar_token_total (T : List (Str × Str)) (t : Str) :
    (clasificar_token (analizadorCon T) t).2 = t ∧
    ((∃ k, pyDictLookup T t = some k ∧ (clasificar_token (analizadorCon T) t).1 = k) ∨
     (clasificar_token (analizadorCon T) t).1 = ("IDENTIFICADOR").toList ∨
     (clasificar_token (analizadorCon T) t).1 = ("ERROR_LEXICO").toList) := by
  constructor
  · exact (clasificar_token_tres_pasos T t).2.2.2
  · rcases hk : pyDictLookup T t with _ | k
    · by_cases hid : es_identificador (analizadorCon T) t
      · right; left
        simp [clasificar_token, analizadorCon, hk, es_identificador] at hid ⊢
        simp [hid]
      · right; right
        simp [clasificar_token, analizadorCon, hk, es_identificador] at hid ⊢
        simp [hid]
    · left
      exact ⟨k, rfl, by simp [clasificar_token, analizadorCon, hk]⟩

/-- C4: keyword precedence is absolute — whenever the lexeme is found in
the table, the recorded kind is returned even when the lexeme also
matches the identifier pattern. -/
theorem precedencia_palabra_clave (T : List (Str × Str)) (t k : Str)
    (hk : pyDictLookup T t = some k)
    (_hid : es_identificador (analizadorCon T) t = true) :
    clasificar_token (analizadorCon T) t = (k, t) := by
  simp [clasificar_token, analizadorCon, hk]

/-- Witness for C4: the keyword `si` also matches the identifier pattern,
yet classifies with its recorded kind. -/
theorem precedencia_palabra_clave_witness :
    clasificar_token
        (analizadorCon [((("si").toList), (("PALABRA_RESERVADA").toList))])
        (("si").toList)
      = ((("PALABRA_RESERVADA").toList), (("si").toList)) :=
  precedencia_palabra_clave
    [((("si").toList), (("PALABRA_RESERVADA").toList))]
    (("si").toList) (("PALABRA_RESERVADA").toList) (by decide) (by decide)

/-- C8: classification is deterministic — a second call on the state
returned by a first call of `clasificar_token` with the same token and
table yields the identical result. -/
theorem clasificar_token_estable (T : List (Str × Str)) (t : Str) :
    (clasificar_token_call (analizadorCon T) t).1
      = (clasificar_token_call ((clasificar_token_call (analizadorCon T) t).2) t).1 :=
  rfl

/-- C9: classification mutates no state — after a call of
`clasificar_token` or of `es_identificador`, the keyword table and the
compiled identifier pattern of the analyzer are exactly as before. -/
theorem clasificar_token_sin_mutacion (a : AnalizadorLexico) (t : Str) :
    ((clasificar_token_call a t).2.palabras_clave = a.palabras_clave ∧
     (clasificar_token_call a t).2.patron_identificador = a.patron_identificador) ∧
    ((es_identificador_call a t).2.palabras_clave = a.palabras_clave ∧
     (es_identificador_call a t).2.patron_identificador = a.patron_identificador) :=
  ⟨⟨rfl, rfl⟩, ⟨rfl, rfl⟩⟩

/-- C5: order preservation — the analysis loop produces exactly the input
token list mapped through `clasificar_token` in input order, so the
output has the same length and its i-th element is the classification of
the i-th input token; likewise for a whole file content split into
words. -/
theorem analizar_preserva_orden (T : List (Str × Str)) (palabras : List Str)
    (contenido : Str) :
    analizar_palabras (analizadorCon T) palabras
      = palabras.map (clasificar_token (analizadorCon T)) ∧
    (analizar_palabras (analizadorCon T) palabras).length = palabras.length ∧
    analizar_archivo (analizadorCon T) contenido
      = (pySplit contenido).map (clasificar_token (analizadorCon T)) := by
  refine ⟨?_, ?_, ?_⟩
  · simpa using foldl_append_singleton (analizadorCon T) palabras []
  · rw [analizar_palabras, foldl_append_singleton]
    simp
  · rw [analizar_archivo, analizar_palabras, foldl_append_singleton]
    simp

/-- C6: last occurrence wins — inserting a binding makes the key map to
the new value and leaves every other key unchanged, and loading the two
lines `x A` and `x B` in that order yields a table where `x` maps
to `B`. -/
theorem ultima_ocurrencia_gana (m : List (Str × Str)) (k v k' : Str) :
    pyDictLookup (pyDictInsert m k v) k'
      = (if k' = k then some v else pyDictLookup m k') ∧
    pyDictLookup (cargar_diccionario [("x A").toList, ("x B").toList]) (("x").toList)
      = some (("B").toList) := by
  exact ⟨pyDictLookup_pyDictInsert m k v k', by decide⟩

/-- C7 counterexample: two well-formed lines with the same lexeme — the
table has one entry while the well-formed-line count is two, so the size
does not always equal the count of well-formed lines. -/
theorem tamano_distinto_de_cuenta :
    ¬ ((cargar_diccionario [("x A").toList, ("x B").toList]).length
        = List.countP bienFormada [("x A").toList, ("x B").toList]) := by
  decide

/-- C7 (amended): malformed lines are skipped without aborting — the
loaded table is the one obtained from the well-formed lines alone — and,
provided the well-formed lines carry pairwise distinct lexemes, the size
of the table equals the count of well-formed lines. -/
theorem lineas_malformadas_omitidas (lineas : List Str)
    (h : ((lineas.filterMap entradaDeLinea).map Prod.fst).Nodup) :
    cargar_diccionario lineas = cargar_diccionario (lineas.filter bienFormada) ∧
    (cargar_diccionario lineas).length = lineas.countP bienFormada := by
  constructor
  · rw [cargar_diccionario, cargar_diccionario, foldl_pasoCarga, foldl_pasoCarga,
      filterMap_entradas_filter]
  · rw [cargar_diccionario, foldl_pasoCarga, ← countP_bienFormada]
    have := length_insertarEntradas (lineas.filterMap entradaDeLinea) [] h
      (fun _ _ => rfl)
    simpa using this

/-- Witness for C7 at a concrete list of lines with one malformed line,
one blank line and two well-formed lines with distinct lexemes. -/
theorem lineas_malformadas_omitidas_witness :
    cargar_diccionario [("a KW").toList, ("malo").toList, ("").toList, ("b OTRO").toList]
        = cargar_diccionario
            ([("a KW").toList, ("malo").toList, ("").toList, ("b OTRO").toList].filter
              bienFormada) ∧
    (cargar_diccionario
        [("a KW").toList, ("malo").toList, ("").toList, ("b OTRO").toList]).length
      = List.countP bienFormada
          [("a KW").toList, ("malo").toList, ("").toList, ("b OTRO").toList] :=
  lineas_malformadas_omitidas
    [("a KW").toList, ("malo").toList, ("").toList, ("b OTRO").toList] (by decide)

/-- C3 counterexample: the string `abc` followed by a newline contains a
character outside the pattern, yet `es_identificador` accepts it, so the
claimed equivalence with the strict whole-string pattern fails there. -/
theorem es_identificador_no_estricto :
    ¬ (es_identificador (analizadorCon []) (("abc\n").toList) = true ↔
       specEsIdentificador (("abc\n").toList) = true) := by
  decide

/-- C3 (amended): `es_identificador` accepts exactly the strings that
fully match one lowercase letter followed by lowercase letters or digits,
or such a string followed by one single trailing newline; in particular
the empty string is still rejected. -/
theorem es_identificador_caracterizacion (T : List (Str × Str)) (t : Str) :
    es_identificador (analizadorCon T) t = true ↔
      (specEsIdentificador t = true ∨
       ∃ u, t = u ++ ['\n'] ∧ specEsIdentificador u = true) := by
  have hspec : ∀ s : Str, specEsIdentificador s = matchesBody s := by
    intro s
    cases s <;> rfl
  simp only [es_identificador, analizadorCon, coincidePatron, Bool.or_eq_true, hspec]
  constructor
  · intro h
    rcases h with h | h
    · exact Or.inl h
    · rcases hl : t.getLast? with _ | c
      · rw [hl] at h
        exact absurd h (by simp)
      · rw [hl] at h
        have hc : c = '\n' ∧ matchesBody t.dropLast = true := by
          simpa using h
        rcases List.getLast?_eq_some_iff.mp hl with ⟨u, hu⟩
        refine Or.inr ⟨u, ?_, ?_⟩
        · rw [hu, hc.1]
        · have : t.dropLast = u := by
            rw [hu, List.dropLast_concat]
          rw [← this]
          exact hc.2
  · intro h
    rcases h with h | ⟨u, hu, hmat⟩
    · exact Or.inl h
    · right
      rw [hu, List.getLast?_concat, List.dropLast_concat]
      simpa using hmat

/-- C10 counterexample: `es_identificador` accepts `abc` plus newline,
but appending one further trailing newline to that accepted string is
rejected, so acceptance is not closed under appending a newline. -/
theorem nueva_linea_no_cerrada :
    es_identificador (analizadorCon []) (("abc\n").toList) = true ∧
    es_identificador (analizadorCon []) ((("abc\n").toList) ++ ['\n']) = false := by
  decide

/-- C10 (amended): for every string fully matching the pattern body, the
string with one trailing newline appended is still accepted, and a token
such as `abc` plus newline is classified as IDENTIFICADOR with the
lexeme unchanged by any table not containing it. -/
theorem acepta_nueva_linea_final (T : List (Str × Str)) (s : Str)
    (hs : matchesBody s = true)
    (hT : pyDictLookup T (("abc\n").toList) = none) :
    es_identificador (analizadorCon T) (s ++ ['\n']) = true ∧
    clasificar_token (analizadorCon T) (("abc\n").toList)
      = (("IDENTIFICADOR").toList, ("abc\n").toList) := by
  constructor
  · simp [es_identificador, analizadorCon, coincidePatron, List.getLast?_concat,
      List.dropLast_concat, hs]
  · have hc : coincidePatron ['a', 'b', 'c', '\n'] = true := by decide
    have hT2 : pyDictLookup T ['a', 'b', 'c', '\n'] = none := hT
    simp [clasificar_token, analizadorCon, es_identificador, hT2, hc]

/-- Witness for C10 at the empty table and the string `abc`. -/
theorem acepta_nueva_linea_final_witness :
    es_identificador (analizadorCon []) ((("abc").toList) ++ ['\n']) = true ∧
    clasificar_token (analizadorCon []) (("abc\n").toList)
      = (("IDENTIFICADOR").toList, ("abc\n").toList) :=
  acepta_nueva_linea_final [] (("abc").toList) (by decide) (by decide)
